import Mathlib

/-!
# Verification of the HyperSpy image I/O plugin (`hyperspy/io_plugins/image.py`)

A shallow embedding of the plugin's two entry points, `file_reader` /
`file_writer`, and its helper `_read_data`, together with theorems settling
the specification claims.

Modelling conventions:
* Python numbers (axis scales, output sizes, dpi) are rationals `ℚ`
  (exact arithmetic standing in for floats).
* Pixel arrays are the inductive `Image`: a 2-D grayscale array, a 3-D
  channel array (the last dimension is the channel dimension), or the host's
  packed-RGB(A) representation.  Sample values are naturals, indexed by total
  functions; all array-wide tests quantify over the (finite) extent.
* Keyword-argument dictionaries are association lists `Kwds`; insertion
  mirrors Python dict assignment (replace if present, else append).
* External collaborators (the imageio codec, the matplotlib canvas, pint,
  matplotlib-scalebar) are either parameters of the embedded functions or
  small definitions whose doc comments start with `Modelled from the spec:`.
* Raising `ValueError`/`IndexError` is modelled by an `error`/`Except.error`
  result carrying the message.
-/

namespace HSImage

/-- A Python keyword-argument value: string, number or boolean. -/
inductive KVal where
  | str (s : String)
  | num (q : ℚ)
  | bool (b : Bool)
deriving DecidableEq, Repr

/-- A Python keyword-argument dictionary, as an association list. -/
abbrev Kwds := List (String × KVal)

/-- Dictionary lookup (`d[k]` / `d.get(k)`). -/
def dict_get : Kwds → String → Option KVal
  | [], _ => none
  | p :: d, k => if p.1 = k then some p.2 else dict_get d k

/-- Dictionary assignment `d[k] = v`: replace the entry in place when the
key is present (Python dicts keep insertion order), otherwise append it. -/
def dict_set : Kwds → String → KVal → Kwds
  | [], k, v => [(k, v)]
  | p :: d, k, v => if p.1 = k then (k, v) :: d else p :: dict_set d k v

/-- Python truthiness of a keyword value. -/
def kval_truthy : KVal → Bool
  | .str s => s ≠ ""
  | .num q => q ≠ 0
  | .bool b => b

/-- An axis-units value: the `traits` `Undefined` sentinel or a unit string. -/
inductive Units where
  | undefined
  | named (s : String)
deriving DecidableEq, Repr

/-- An axis descriptor as consumed from the host's axes manager:
`scale` (units per pixel), `units`, `size` (pixel count). -/
structure Axis where
  scale : ℚ
  units : Units
  size : ℕ
deriving DecidableEq, Repr

/-- The host's axes manager: ordered signal and navigation axes. -/
structure AxesManager where
  signal_axes : List Axis
  navigation_axes : List Axis

/-- A pixel array: 2-D grayscale, 3-D multi-channel (last dimension is the
channel dimension), or the host's packed-RGB(A) representation. -/
inductive Image where
  | gray (h w : ℕ) (px : ℕ → ℕ → ℕ)
  | multi (h w c : ℕ) (px : ℕ → ℕ → ℕ → ℕ)
  | packed (h w c : ℕ) (px : ℕ → ℕ → ℕ → ℕ)

/-- `ndarray.shape` of an image (the packed representation holds one
composite value per pixel, so its shape is 2-D). -/
def Image.shape : Image → List ℕ
  | .gray h w _ => [h, w]
  | .multi h w c _ => [h, w, c]
  | .packed h w _ _ => [h, w]

/-- Modelled from the spec: `rgb_tools.is_rgbx` — detects the host's
packed-RGB(A) representation (a single composite value per pixel). -/
def is_rgbx : Image → Bool
  | .packed _ _ _ _ => true
  | _ => false

/-- Modelled from the spec: `rgb_tools.regular_array2rgbx` — re-encodes a
multi-channel array into the host's packed-RGB(A) representation. -/
def regular_array2rgbx : Image → Image
  | .multi h w c px => .packed h w c px
  | img => img

/-- Modelled from the spec: `rgb_tools.rgbx2regular_array` — unpacks the
host's packed-RGB(A) representation back to a plain channel array. -/
def rgbx2regular_array : Image → Image
  | .packed h w c px => .multi h w c px
  | img => img

/-- `(dc[:, :, 1] == dc[:, :, 2]).all()`: every value in channel index 1
equals the corresponding value in channel index 2. -/
def channels_eq (h w : ℕ) (px : ℕ → ℕ → ℕ → ℕ) : Bool :=
  decide (∀ i < h, ∀ j < w, px i j 1 = px i j 2)

/-- The grayscale-collapse step of `_read_data` applied to an already
decoded array.  NumPy indexing `dc[:, :, 1]` / `dc[:, :, 2]` requires the
third dimension to have length at least 3; otherwise an `IndexError` is
raised.  (The source tests `(dc[:,:,1] == dc[:,:,2]).all()` twice, joined
by `and`; the two conjuncts are identical, so it is modelled once.) -/
def _read_data_of (dc : Image) : Except String Image :=
  match dc with
  | .multi h w c px =>
      if c < 3 then
        .error "IndexError: channel index out of bounds"
      else if channels_eq h w px then
        .ok (.gray h w (fun i j => px i j 0))
      else
        .ok (regular_array2rgbx (.multi h w c px))
  | img => .ok img

/-- `_read_data(filename, **kwds)`: decode via the delegate codec (the
parameter `decode` stands for `imageio.imread` at the given filename, taking
the keyword options), then apply the grayscale-collapse step. -/
def _read_data (decode : Kwds → Except String Image) (kwds : Kwds) :
    Except String Image :=
  (decode kwds).bind _read_data_of

/-- `os.path.split(filename)[1]`: the basename of a path. -/
def path_basename (f : String) : String :=
  match (f.splitOn "/").reverse with
  | [] => ""
  | b :: _ => b

/-- The data entry of a read result: an eagerly decoded array, or a lazy
node carrying the probed shape and the deferred re-decode. -/
inductive DataVal where
  | eager (img : Image)
  | lazyNode (shape : List ℕ) (recompute : Except String Image)

/-- One entry of the list returned by `file_reader`: the data plus the
minimal metadata record. -/
structure SignalDict where
  data : DataVal
  original_filename : String
  signal_type : String
  record_by : String

/-- `file_reader(filename, **kwds)`.  The second component of the result is
the keyword dictionary passed to the delegate decode on line
`dc = _read_data(filename, **kwds)` (recorded so that pass-through can be
stated).  Note the source pops `lazy` only *after* that call, so the
dictionary reaching the codec is the caller's dictionary unchanged; in the
lazy branch the deferred re-decode `delayed(_read_data, pure=True)(filename)`
passes no keyword options. -/
def file_reader (filename : String) (kwds : Kwds)
    (decode : Kwds → Except String Image) :
    Except String (List SignalDict) × Kwds :=
  let passed := kwds
  match _read_data decode passed with
  | .error e => (.error e, passed)
  | .ok dc =>
      let lazy := match dict_get kwds "lazy" with
                  | some v => kval_truthy v
                  | none => false
      let data := if lazy then
                    DataVal.lazyNode dc.shape (_read_data decode [])
                  else
                    DataVal.eager dc
      (.ok [{ data := data,
              original_filename := path_basename filename,
              signal_type := "",
              record_by := "image" }], passed)

/-- `output_size` argument of `file_writer`: a single number or a pair
(`None` is `Option.none` at the use site). -/
inductive OutputSize where
  | num (q : ℚ)
  | pair (a b : ℚ)
deriving DecidableEq, Repr

/-- Python truthiness of the `output_size` argument: `None`, `0` and `0.0`
are falsy; a two-element list is always truthy. -/
def output_size_truthy : Option OutputSize → Bool
  | none => false
  | some (.num q) => q ≠ 0
  | some (.pair _ _) => true

/-- Axis-pair selection (lines 92–98): prefer the signal axes when exactly
two exist, else the navigation axes when exactly two exist, else none. -/
def select_axes (am : AxesManager) : Option (Axis × Axis) :=
  if am.signal_axes.length = 2 then
    match am.signal_axes with
    | [a, b] => some (a, b)
    | _ => none
  else if am.navigation_axes.length = 2 then
    match am.navigation_axes with
    | [a, b] => some (a, b)
    | _ => none
  else
    none

/-- The default scale-bar configuration
`dict(box_alpha=0.75, location='lower left')` (line 77). -/
def default_scalebar_kwds : Kwds :=
  [("box_alpha", .num (3/4)), ("location", .str "lower left")]

/-- Modelled from the spec: the external units parser (`pint`) checks
whether a unit string is expressible as a reciprocal length
(`_ureg.Quantity(units).check('1/[length]')`); units written as
`1/<length>` such as `"1/nm"` are, while plain lengths and the printing
unit `"px"` are not. -/
def check_inverse_length (u : String) : Bool :=
  match u.data with
  | '1' :: '/' :: _ => true
  | _ => false

/-- The arguments of the `ScaleBar(axis.scale, units, **scalebar_kwds)`
call (line 141). -/
structure ScaleBarCall where
  scale : ℚ
  units : String
  kwds : Kwds
deriving DecidableEq, Repr

/-- Lines 133–141: resolve the scale-bar units and dimension from axis 0.
The `traits` `Undefined` sentinel becomes `"px"` with dimension
`"pixel-length"`; a unit parseable as inverse length then sets dimension
`"si-length-reciprocal"` (both `if`s run in sequence, as in the source). -/
def mk_scalebar_call (axis : Axis) (scalebar_kwds : Kwds) : ScaleBarCall :=
  let p : String × Kwds :=
    match axis.units with
    | .undefined => ("px", dict_set scalebar_kwds "dimension" (.str "pixel-length"))
    | .named s => (s, scalebar_kwds)
  let kwds2 :=
    if check_inverse_length p.1 then
      dict_set p.2 "dimension" (.str "si-length-reciprocal")
    else p.2
  { scale := axis.scale, units := p.1, kwds := kwds2 }

/-- Modelled from the spec: the scale-bar overlay renderer labels the bar
with the `dimension` entry of its options when present, and defaults to
plain SI length (`"si-length"`) otherwise. -/
def effective_dimension (sb : ScaleBarCall) : String :=
  match dict_get sb.kwds "dimension" with
  | some (.str s) => s
  | _ => "si-length"

/-- `os.path.splitext(filename)[1].replace('.', '')` — the extension of the
filename (the characters after the last dot), without the dot. -/
def ext_of (filename : String) : String :=
  let rev := filename.data.reverse
  if rev.contains '.' then
    String.mk ((rev.takeWhile (fun c => c ≠ '.')).reverse)
  else ""

/-- Line 113/116 error message: the supported formats, joined. -/
def scalebar_format_msg (supported_format : List String) : String :=
  "Exporting image with scalebar is supported only with " ++
    String.intercalate ", " supported_format ++ "."

/-- Line 116 error message for the output-size case. -/
def size_format_msg (supported_format : List String) : String :=
  "Setting the output size is only supported with " ++
    String.intercalate ", " supported_format ++ "."

/-- The observable outcome of `file_writer`: a direct codec write
(`imwrite(filename, data, **kwds)`), a rendered figure export
(`fig.savefig(filename, dpi=dpi, pil_kwargs=kwds)` of a canvas of size
`figsize` holding `data` and optionally a scale bar), or a raised
`ValueError`.  The `rendered` constructor records the chosen axis pair (the
`axes` variable of the source). -/
inductive WriteResult where
  | direct (data : Image) (kwds : Kwds)
  | rendered (axes_used : Axis × Axis) (figsize : List ℚ) (dpi : ℚ)
      (data : Image) (bar : Option ScaleBarCall) (savekwds : Kwds)
  | error (msg : String)

/-- `file_writer(filename, signal, scalebar, scalebar_kwds, output_size,
**kwds)`.  `signal_data` and `am` are the `signal.data` and
`signal.axes_manager` attributes of the signal argument;
`lib_available` models whether `matplotlib_scalebar` imports (line 83:
on `ImportError` the `scalebar` flag is demoted to `False`);
`supported_format` stands for
`sorted(fig.canvas.get_supported_filetypes())`, the rasterizer's supported
output file types (line 109). -/
def file_writer (filename : String) (signal_data : Image) (am : AxesManager)
    (scalebar0 : Bool) (scalebar_kwds0 : Option Kwds)
    (output_size0 : Option OutputSize) (lib_available : Bool)
    (supported_format : List String) (kwds : Kwds) : WriteResult :=
  let data := if is_rgbx signal_data then rgbx2regular_array signal_data
              else signal_data
  let scalebar_kwds := scalebar_kwds0.getD default_scalebar_kwds
  let scalebar := scalebar0 && lib_available
  if scalebar || output_size_truthy output_size0 then
    let dpi : ℚ := 100
    match select_axes am with
    | none => .error "Data not compatible with saving scale bar."
    | some axes =>
        let output_size : List ℚ :=
          match output_size0 with
          | none => [(axes.1.size : ℚ), (axes.2.size : ℚ)]
          | some (.num q) => [q, q]
          | some (.pair a b) => [a, b]
        let figsize := output_size.map (fun s => s / dpi)
        if ext_of filename ∈ supported_format then
          if scalebar ∧ (axes.1.scale ≠ axes.2.scale ∨ axes.1.units ≠ axes.2.units) then
            .error "Scale and units must be the same for each axes to export images with a scale bar."
          else
            let bar := if scalebar then some (mk_scalebar_call axes.1 scalebar_kwds)
                       else none
            .rendered axes figsize dpi data bar kwds
        else
          if scalebar then .error (scalebar_format_msg supported_format)
          else if output_size ≠ [] then .error (size_format_msg supported_format)
          else .direct data kwds
  else
    .direct data kwds

/-- Modelled from the spec: the pixel shape of the written image for a
rendered write — the canvas `figsize` times the export density (the
`savefig(filename, dpi=dpi, ...)` call exports at `dpi` pixels per unit of
figure size). -/
def rendered_shape : WriteResult → Option (List ℚ)
  | .rendered _ figsize dpi _ _ _ => some (figsize.map (fun s => s * dpi))
  | _ => none

/-- The option dictionary handed to the scale-bar overlay in a rendered
write that drew a scale bar. -/
def result_bar_kwds : WriteResult → Option Kwds
  | .rendered _ _ _ _ (some sb) _ => some sb.kwds
  | _ => none

/-! ## Helper lemmas -/

/-- Looking up a key just assigned returns the assigned value. -/
theorem dict_get_set_self (d : Kwds) (k : String) (v : KVal) :
    dict_get (dict_set d k v) k = some v := by
  induction d with
  | nil => simp [dict_set, dict_get]
  | cons p d ih =>
      by_cases hp : p.1 = k
      · simp [dict_set, dict_get, hp]
      · simp [dict_set, dict_get, hp, ih]

/-! ## Claims -/

/-- C1: for every decoded array with more than 2 dimensions (and a channel
dimension of RGB(A) extent), if every value in channel index 1 equals the
corresponding value in channel index 2, the reader's collapse step returns
the 2-D slice keeping channel 0; otherwise it returns the array re-encoded
into the host's packed RGB(A) representation.  The step is a pure Lean
function, hence deterministic and side-effect free. -/
theorem grayscale_collapse_rule (h w c : ℕ) (px : ℕ → ℕ → ℕ → ℕ)
    (hc : 3 ≤ c) :
    ((∀ i < h, ∀ j < w, px i j 1 = px i j 2) →
        _read_data_of (Image.multi h w c px) =
          Except.ok (Image.gray h w (fun i j => px i j 0))) ∧
    ((¬ ∀ i < h, ∀ j < w, px i j 1 = px i j 2) →
        _read_data_of (Image.multi h w c px) =
          Except.ok (Image.packed h w c px)) := by
  have h3 : ¬ c < 3 := Nat.not_lt.mpr hc
  constructor
  · intro heq
    have hck : channels_eq h w px = true := by
      simp only [channels_eq, decide_eq_true_eq]
      exact heq
    simp [_read_data_of, h3, hck]
  · intro heq
    have hck : channels_eq h w px = false := by
      simp only [channels_eq, decide_eq_false_iff_not]
      exact heq
    simp [_read_data_of, h3, hck, regular_array2rgbx]

/-- Witness for C1: both branches at a concrete 1×1×3 array. -/
theorem grayscale_collapse_rule_witness :
    _read_data_of (Image.multi 1 1 3 (fun _ _ _ => 7)) =
      Except.ok (Image.gray 1 1 (fun _ _ => 7)) ∧
    _read_data_of (Image.multi 1 1 3 (fun _ _ k => k)) =
      Except.ok (Image.packed 1 1 3 (fun _ _ k => k)) :=
  ⟨(grayscale_collapse_rule 1 1 3 (fun _ _ _ => 7) (by norm_num)).1
      (by intro i _ j _; rfl),
   (grayscale_collapse_rule 1 1 3 (fun _ _ k => k) (by norm_num)).2
      (by decide)⟩

/-- C10: the collapse step indexes channels 1 and 2 unconditionally, so for
a decoded 3-D array whose channel dimension has length 1 or 2 the indexing
is out of bounds and `file_reader` fails rather than returning a result;
for channel dimension at least 3 it returns a result. -/
theorem reader_small_channel_total (h w c : ℕ) (px : ℕ → ℕ → ℕ → ℕ)
    (filename : String) (kwds : Kwds) (decode : Kwds → Except String Image)
    (hdec : decode kwds = Except.ok (Image.multi h w c px)) :
    ((c = 1 ∨ c = 2) →
        (file_reader filename kwds decode).1 =
          Except.error "IndexError: channel index out of bounds") ∧
    (3 ≤ c → ∃ out, (file_reader filename kwds decode).1 = Except.ok out) := by
  constructor
  · rintro (rfl | rfl) <;>
      simp [file_reader, _read_data, hdec, _read_data_of, Except.bind]
  · intro hc
    have h3 : ¬ c < 3 := Nat.not_lt.mpr hc
    have hdc : ∃ dc, _read_data decode kwds = Except.ok dc := by
      by_cases hck : channels_eq h w px = true
      · exact ⟨Image.gray h w (fun i j => px i j 0),
          by simp [_read_data, hdec, _read_data_of, h3, hck, Except.bind]⟩
      · exact ⟨Image.packed h w c px,
          by simp [_read_data, hdec, _read_data_of, h3, hck, Except.bind,
            regular_array2rgbx]⟩
    obtain ⟨dc, hdc⟩ := hdc
    cases hfr : (file_reader filename kwds decode).1 with
    | error e => simp [file_reader, hdc] at hfr
    | ok out => exact ⟨out, rfl⟩

/-- Witness for C10: a 2-channel decode fails, a 3-channel decode returns. -/
theorem reader_small_channel_total_witness :
    (file_reader "t.png" []
        (fun _ => Except.ok (Image.multi 1 1 2 (fun _ _ k => k)))).1 =
      Except.error "IndexError: channel index out of bounds" ∧
    ∃ out, (file_reader "t.png" []
        (fun _ => Except.ok (Image.multi 1 1 3 (fun _ _ k => k)))).1 =
      Except.ok out :=
  ⟨(reader_small_channel_total 1 1 2 (fun _ _ k => k) "t.png" [] _ rfl).1
      (Or.inr rfl),
   (reader_small_channel_total 1 1 3 (fun _ _ k => k) "t.png" [] _ rfl).2
      (by norm_num)⟩

/-- C5: every keyword option other than `lazy` given to `file_reader` is
passed through unchanged to the delegate codec's decode call (the source in
fact passes the whole dictionary unchanged, popping `lazy` only after the
eager decode). -/
theorem reader_kwds_passthrough (filename : String) (kwds : Kwds)
    (decode : Kwds → Except String Image) (k : String) (hk : k ≠ "lazy") :
    dict_get (file_reader filename kwds decode).2 k = dict_get kwds k := by
  simp only [file_reader]
  cases _read_data decode kwds <;> rfl

/-- Witness for C5 at a concrete option dictionary. -/
theorem reader_kwds_passthrough_witness :
    "quality" ≠ "lazy" ∧
    dict_get (file_reader "a/b.png"
        [("quality", KVal.num 100), ("lazy", KVal.bool true)]
        (fun _ => Except.ok (Image.gray 1 1 (fun _ _ => 0)))).2 "quality" =
      dict_get [("quality", KVal.num 100), ("lazy", KVal.bool true)]
        "quality" :=
  ⟨by decide, reader_kwds_passthrough _ _ _ _ (by decide)⟩

/-- C8: with `scalebar` false and `output_size` `None`, `file_writer`
performs a direct codec write of `signal.data` (unpacked from packed
RGB(A) back to plain channel form when applicable) with the remaining
keyword options; no figure or canvas is constructed (the result is a
`direct` write, not a `rendered` one). -/
theorem direct_write_mode (filename : String) (signal_data : Image)
    (am : AxesManager) (scalebar_kwds0 : Option Kwds) (lib_available : Bool)
    (supported_format : List String) (kwds : Kwds) :
    file_writer filename signal_data am false scalebar_kwds0 none
        lib_available supported_format kwds =
      WriteResult.direct
        (if is_rgbx signal_data then rgbx2regular_array signal_data
         else signal_data) kwds := by
  simp [file_writer, output_size_truthy]

/-- C2: for rendered writes, `file_writer` uses the two signal axes when
exactly two signal axes exist (preferring them over navigation axes); else
the two navigation axes when exactly two exist; else it raises
`ValueError("Data not compatible with saving scale bar.")`. -/
theorem axis_pair_selection (am : AxesManager) :
    (∀ a b, am.signal_axes = [a, b] → select_axes am = some (a, b)) ∧
    (am.signal_axes.length ≠ 2 →
      ∀ a b, am.navigation_axes = [a, b] → select_axes am = some (a, b)) ∧
    (am.signal_axes.length ≠ 2 → am.navigation_axes.length ≠ 2 →
      ∀ filename signal_data scalebar_kwds0 output_size0 supported_format
          kwds,
        file_writer filename signal_data am true scalebar_kwds0 output_size0
            true supported_format kwds =
          WriteResult.error "Data not compatible with saving scale bar.") := by
  refine ⟨?_, ?_, ?_⟩
  · intro a b hab
    simp [select_axes, hab]
  · intro h2 a b hab
    simp [select_axes, h2, hab]
  · intro h2 hn filename signal_data scalebar_kwds0 output_size0
      supported_format kwds
    have hsel : select_axes am = none := by simp [select_axes, h2, hn]
    simp [file_writer, hsel]

/-- Witness for C2: a signal-axis pair is selected; a manager with neither
pair makes the writer fail. -/
theorem axis_pair_selection_witness :
    select_axes ⟨[⟨1, Units.named "nm", 8⟩, ⟨1, Units.named "nm", 8⟩], []⟩ =
      some (⟨1, Units.named "nm", 8⟩, ⟨1, Units.named "nm", 8⟩) ∧
    file_writer "t.png" (Image.gray 2 2 (fun _ _ => 0))
        ⟨[], [⟨1, Units.named "nm", 8⟩]⟩ true none none true ["png"] [] =
      WriteResult.error "Data not compatible with saving scale bar." :=
  ⟨(axis_pair_selection _).1 _ _ rfl,
   (axis_pair_selection _).2.2 (by decide) (by decide) "t.png" _ none none
     ["png"] []⟩

/-- C3: when a scale bar is requested (and the overlay library is
available), two chosen axes differing in scale or in units make
`file_writer` raise the calibration-mismatch `ValueError`; the check is not
performed for output-size-only rendered writes, which succeed on the same
mismatched axes. -/
theorem calibration_mismatch (filename : String) (signal_data : Image)
    (am : AxesManager) (scalebar_kwds0 : Option Kwds)
    (supported_format : List String) (kwds : Kwds) (a b : Axis)
    (hsel : select_axes am = some (a, b))
    (hext : ext_of filename ∈ supported_format)
    (hmis : a.scale ≠ b.scale ∨ a.units ≠ b.units) :
    (∀ output_size0,
        file_writer filename signal_data am true scalebar_kwds0 output_size0
            true supported_format kwds =
          WriteResult.error
            "Scale and units must be the same for each axes to export images with a scale bar.") ∧
    (∀ output_size0 lib_available,
        output_size_truthy output_size0 = true →
        ∃ figsize data,
          file_writer filename signal_data am false scalebar_kwds0
              output_size0 lib_available supported_format kwds =
            WriteResult.rendered (a, b) figsize 100 data none kwds) := by
  constructor
  · intro output_size0
    rcases hmis with h | h <;> simp [file_writer, hsel, hext, h]
  · intro output_size0 lib_available htr
    match output_size0 with
    | none => simp [output_size_truthy] at htr
    | some (.num q) =>
        have hq : q ≠ 0 := by simpa [output_size_truthy] using htr
        exact ⟨[q / 100, q / 100],
          if is_rgbx signal_data then rgbx2regular_array signal_data
          else signal_data,
          by simp [file_writer, hsel, hext, output_size_truthy, hq]⟩
    | some (.pair x y) =>
        exact ⟨[x / 100, y / 100],
          if is_rgbx signal_data then rgbx2regular_array signal_data
          else signal_data,
          by simp [file_writer, hsel, hext, output_size_truthy]⟩

/-- Witness for C3: mismatched scales raise the error when the scale bar is
requested; an output-size-only write on the same axes renders. -/
theorem calibration_mismatch_witness :
    file_writer "t.png" (Image.gray 2 2 (fun _ _ => 0))
        ⟨[⟨1, Units.named "nm", 2⟩, ⟨2, Units.named "nm", 2⟩], []⟩ true none
        none true ["png"] [] =
      WriteResult.error
        "Scale and units must be the same for each axes to export images with a scale bar." ∧
    ∃ figsize data,
      file_writer "t.png" (Image.gray 2 2 (fun _ _ => 0))
          ⟨[⟨1, Units.named "nm", 2⟩, ⟨2, Units.named "nm", 2⟩], []⟩ false
          none (some (OutputSize.num 512)) true ["png"] [] =
        WriteResult.rendered (⟨1, Units.named "nm", 2⟩, ⟨2, Units.named "nm", 2⟩)
          figsize 100 data none [] :=
  ⟨(calibration_mismatch "t.png" (Image.gray 2 2 (fun _ _ => 0))
      ⟨[⟨1, Units.named "nm", 2⟩, ⟨2, Units.named "nm", 2⟩], []⟩ none ["png"]
      [] ⟨1, Units.named "nm", 2⟩ ⟨2, Units.named "nm", 2⟩ rfl (by decide)
      (Or.inl (by norm_num))).1 none,
   (calibration_mismatch "t.png" (Image.gray 2 2 (fun _ _ => 0))
      ⟨[⟨1, Units.named "nm", 2⟩, ⟨2, Units.named "nm", 2⟩], []⟩ none ["png"]
      [] ⟨1, Units.named "nm", 2⟩ ⟨2, Units.named "nm", 2⟩ rfl (by decide)
      (Or.inl (by norm_num))).2 (some (OutputSize.num 512)) true (by decide)⟩

/-- C4: in a successful scale-bar write (no caller-supplied `dimension`
override), the bar's semantics follow axis 0's units in three exclusive
cases: undefined units render as `"px"` with dimension `"pixel-length"`
(and no exception is raised — the write renders); units parseable as
inverse length give dimension `"si-length-reciprocal"`; any other unit is a
plain length with dimension `"si-length"`.  The bar is drawn with axis 0's
scale and the resolved units. -/
theorem scalebar_dimension_semantics (filename : String)
    (signal_data : Image) (am : AxesManager) (scalebar_kwds0 : Option Kwds)
    (output_size0 : Option OutputSize) (supported_format : List String)
    (kwds : Kwds) (a b : Axis)
    (hsel : select_axes am = some (a, b))
    (hext : ext_of filename ∈ supported_format)
    (hcal : a.scale = b.scale ∧ a.units = b.units)
    (hdim : dict_get (scalebar_kwds0.getD default_scalebar_kwds)
        "dimension" = none) :
    ∃ figsize data sb,
      file_writer filename signal_data am true scalebar_kwds0 output_size0
          true supported_format kwds =
        WriteResult.rendered (a, b) figsize 100 data (some sb) kwds ∧
      sb.scale = a.scale ∧
      (a.units = Units.undefined →
        sb.units = "px" ∧ effective_dimension sb = "pixel-length") ∧
      (∀ u, a.units = Units.named u → check_inverse_length u = true →
        sb.units = u ∧ effective_dimension sb = "si-length-reciprocal") ∧
      (∀ u, a.units = Units.named u → check_inverse_length u = false →
        sb.units = u ∧ effective_dimension sb = "si-length") := by
  obtain ⟨hs, hu⟩ := hcal
  refine ⟨(match output_size0 with
      | none => [((a.size : ℚ)), ((b.size : ℚ))]
      | some (OutputSize.num q) => [q, q]
      | some (OutputSize.pair x y) => [x, y]).map (fun s => s / 100),
    (if is_rgbx signal_data then rgbx2regular_array signal_data
     else signal_data),
    mk_scalebar_call a (scalebar_kwds0.getD default_scalebar_kwds),
    ?_, ?_, ?_, ?_, ?_⟩
  · simp [file_writer, hsel, hext, hs, hu]
  · rfl
  · intro ha
    have hpx : check_inverse_length "px" = false := by decide
    constructor
    · simp [mk_scalebar_call, ha, hpx]
    · simp [mk_scalebar_call, effective_dimension, ha, hpx,
        dict_get_set_self]
  · intro u ha hinv
    constructor
    · simp [mk_scalebar_call, ha, hinv]
    · simp [mk_scalebar_call, effective_dimension, ha, hinv,
        dict_get_set_self]
  · intro u ha hinv
    constructor
    · simp [mk_scalebar_call, ha, hinv]
    · simp [mk_scalebar_call, effective_dimension, ha, hinv, hdim]

/-- Witness for C4 with undefined units: the write renders a pixel-count
bar; the reciprocal and plain cases at "1/nm" and "nm". -/
theorem scalebar_dimension_semantics_witness :
    (∃ figsize data sb,
      file_writer "t.png" (Image.gray 2 2 (fun _ _ => 0))
          ⟨[⟨1, Units.undefined, 2⟩, ⟨1, Units.undefined, 2⟩], []⟩ true none
          none true ["png"] [] =
        WriteResult.rendered (⟨1, Units.undefined, 2⟩, ⟨1, Units.undefined, 2⟩)
          figsize 100 data (some sb) [] ∧
      sb.scale = 1 ∧
      (Units.undefined = Units.undefined →
        sb.units = "px" ∧ effective_dimension sb = "pixel-length") ∧
      (∀ u, Units.undefined = Units.named u → check_inverse_length u = true →
        sb.units = u ∧ effective_dimension sb = "si-length-reciprocal") ∧
      (∀ u, Units.undefined = Units.named u → check_inverse_length u = false →
        sb.units = u ∧ effective_dimension sb = "si-length")) ∧
    check_inverse_length "1/nm" = true ∧ check_inverse_length "nm" = false :=
  ⟨scalebar_dimension_semantics "t.png" (Image.gray 2 2 (fun _ _ => 0))
      ⟨[⟨1, Units.undefined, 2⟩, ⟨1, Units.undefined, 2⟩], []⟩ none none
      ["png"] [] ⟨1, Units.undefined, 2⟩ ⟨1, Units.undefined, 2⟩ rfl
      (by decide) ⟨rfl, rfl⟩ (by decide),
   by decide, by decide⟩

/-- C7: in rendered mode (scale bar requested with the library available,
or a truthy `output_size`), an extension outside the rasterizer's supported
output types makes `file_writer` raise a `ValueError` naming the supported
types — in the scale-bar case and in the output-size case alike. -/
theorem format_capability_gate (filename : String) (signal_data : Image)
    (am : AxesManager) (scalebar_kwds0 : Option Kwds)
    (supported_format : List String) (kwds : Kwds) (a b : Axis)
    (hsel : select_axes am = some (a, b))
    (hext : ext_of filename ∉ supported_format) :
    (∀ output_size0,
        file_writer filename signal_data am true scalebar_kwds0 output_size0
            true supported_format kwds =
          WriteResult.error (scalebar_format_msg supported_format)) ∧
    (∀ output_size0 lib_available,
        output_size_truthy output_size0 = true →
        file_writer filename signal_data am false scalebar_kwds0
            output_size0 lib_available supported_format kwds =
          WriteResult.error (size_format_msg supported_format)) := by
  constructor
  · intro output_size0
    simp [file_writer, hsel, hext]
  · intro output_size0 lib_available htr
    match output_size0 with
    | none => simp [output_size_truthy] at htr
    | some (.num q) =>
        have hq : q ≠ 0 := by simpa [output_size_truthy] using htr
        simp [file_writer, hsel, hext, output_size_truthy, hq]
    | some (.pair x y) =>
        simp [file_writer, hsel, hext, output_size_truthy]

/-- Witness for C7: saving to bmp (unsupported by the rasterizer) fails in
both the scale-bar and the output-size case. -/
theorem format_capability_gate_witness :
    file_writer "t.bmp" (Image.gray 2 2 (fun _ _ => 0))
        ⟨[⟨1, Units.named "nm", 2⟩, ⟨1, Units.named "nm", 2⟩], []⟩ true none
        none true ["png", "jpg"] [] =
      WriteResult.error (scalebar_format_msg ["png", "jpg"]) ∧
    file_writer "t.bmp" (Image.gray 2 2 (fun _ _ => 0))
        ⟨[⟨1, Units.named "nm", 2⟩, ⟨1, Units.named "nm", 2⟩], []⟩ false none
        (some (OutputSize.num 512)) true ["png", "jpg"] [] =
      WriteResult.error (size_format_msg ["png", "jpg"]) :=
  ⟨(format_capability_gate "t.bmp" (Image.gray 2 2 (fun _ _ => 0))
      ⟨[⟨1, Units.named "nm", 2⟩, ⟨1, Units.named "nm", 2⟩], []⟩ none
      ["png", "jpg"] [] ⟨1, Units.named "nm", 2⟩ ⟨1, Units.named "nm", 2⟩ rfl
      (by decide)).1 none,
   (format_capability_gate "t.bmp" (Image.gray 2 2 (fun _ _ => 0))
      ⟨[⟨1, Units.named "nm", 2⟩, ⟨1, Units.named "nm", 2⟩], []⟩ none
      ["png", "jpg"] [] ⟨1, Units.named "nm", 2⟩ ⟨1, Units.named "nm", 2⟩ rfl
      (by decide)).2 (some (OutputSize.num 512)) true (by decide)⟩

/-- C6: in rendered mode the `output_size` resolves to the chosen axes'
pixel sizes when `None`, to `[N, N]` for a single number `N`, and is used
as-is for a pair; the canvas is `output_size / 100` at density 100 and the
export density is 100, so the written pixel shape equals the requested
size exactly. -/
theorem output_size_resolution (filename : String) (signal_data : Image)
    (am : AxesManager) (scalebar_kwds0 : Option Kwds)
    (supported_format : List String) (kwds : Kwds) (a b : Axis)
    (hsel : select_axes am = some (a, b))
    (hext : ext_of filename ∈ supported_format)
    (hcal : a.scale = b.scale ∧ a.units = b.units) :
    (∀ N : ℚ, N ≠ 0 →
      ∃ data,
        file_writer filename signal_data am false scalebar_kwds0
            (some (OutputSize.num N)) true supported_format kwds =
          WriteResult.rendered (a, b) [N / 100, N / 100] 100 data none
            kwds ∧
        rendered_shape (file_writer filename signal_data am false
            scalebar_kwds0 (some (OutputSize.num N)) true supported_format
            kwds) = some [N, N]) ∧
    (∀ A B : ℚ,
      ∃ data,
        file_writer filename signal_data am false scalebar_kwds0
            (some (OutputSize.pair A B)) true supported_format kwds =
          WriteResult.rendered (a, b) [A / 100, B / 100] 100 data none
            kwds ∧
        rendered_shape (file_writer filename signal_data am false
            scalebar_kwds0 (some (OutputSize.pair A B)) true
            supported_format kwds) = some [A, B]) ∧
    (∃ data sb,
        file_writer filename signal_data am true scalebar_kwds0 none true
            supported_format kwds =
          WriteResult.rendered (a, b)
            [(a.size : ℚ) / 100, (b.size : ℚ) / 100] 100 data (some sb)
            kwds ∧
        rendered_shape (file_writer filename signal_data am true
            scalebar_kwds0 none true supported_format kwds) =
          some [(a.size : ℚ), (b.size : ℚ)]) := by
  obtain ⟨hs, hu⟩ := hcal
  have h100 : (100 : ℚ) ≠ 0 := by norm_num
  refine ⟨?_, ?_, ?_⟩
  · intro N hN
    have heq : file_writer filename signal_data am false scalebar_kwds0
        (some (OutputSize.num N)) true supported_format kwds =
        WriteResult.rendered (a, b) [N / 100, N / 100] 100
          (if is_rgbx signal_data then rgbx2regular_array signal_data
           else signal_data) none kwds := by
      simp [file_writer, hsel, hext, output_size_truthy, hN]
    refine ⟨_, heq, ?_⟩
    rw [heq]
    simp [rendered_shape, div_mul_cancel₀, h100]
  · intro A B
    have heq : file_writer filename signal_data am false scalebar_kwds0
        (some (OutputSize.pair A B)) true supported_format kwds =
        WriteResult.rendered (a, b) [A / 100, B / 100] 100
          (if is_rgbx signal_data then rgbx2regular_array signal_data
           else signal_data) none kwds := by
      simp [file_writer, hsel, hext, output_size_truthy]
    refine ⟨_, heq, ?_⟩
    rw [heq]
    simp [rendered_shape, div_mul_cancel₀, h100]
  · have heq : file_writer filename signal_data am true scalebar_kwds0 none
        true supported_format kwds =
        WriteResult.rendered (a, b)
          [(a.size : ℚ) / 100, (b.size : ℚ) / 100] 100
          (if is_rgbx signal_data then rgbx2regular_array signal_data
           else signal_data)
          (some (mk_scalebar_call a
            (scalebar_kwds0.getD default_scalebar_kwds))) kwds := by
      simp [file_writer, hsel, hext, hs, hu]
    refine ⟨_, _, heq, ?_⟩
    rw [heq]
    simp [rendered_shape, div_mul_cancel₀, h100]

/-- Witness for C6: output size 512 yields a 512×512 written shape. -/
theorem output_size_resolution_witness :
    (512 : ℚ) ≠ 0 ∧
    ∃ data,
      file_writer "t.png" (Image.gray 16 16 (fun _ _ => 0))
          ⟨[⟨1, Units.named "nm", 16⟩, ⟨1, Units.named "nm", 16⟩], []⟩ false
          none (some (OutputSize.num 512)) true ["png"] [] =
        WriteResult.rendered (⟨1, Units.named "nm", 16⟩, ⟨1, Units.named "nm", 16⟩)
          [512 / 100, 512 / 100] 100 data none [] ∧
      rendered_shape (file_writer "t.png" (Image.gray 16 16 (fun _ _ => 0))
          ⟨[⟨1, Units.named "nm", 16⟩, ⟨1, Units.named "nm", 16⟩], []⟩ false
          none (some (OutputSize.num 512)) true ["png"] []) =
        some [512, 512] :=
  ⟨by norm_num,
   (output_size_resolution "t.png" (Image.gray 16 16 (fun _ _ => 0))
      ⟨[⟨1, Units.named "nm", 16⟩, ⟨1, Units.named "nm", 16⟩], []⟩ none
      ["png"] [] ⟨1, Units.named "nm", 16⟩ ⟨1, Units.named "nm", 16⟩ rfl
      (by decide) ⟨rfl, rfl⟩).1 512 (by norm_num)⟩

/-- Counterexample to C9 as stated: with caller-supplied
`scalebar_kwds={'location': 'lower right'}` the options handed to the
scale bar are exactly the caller's dictionary — the default
`box_alpha=0.75` is *not* merged in (no `box_alpha` entry at all). -/
theorem scalebar_kwds_no_merge_counterexample :
    result_bar_kwds (file_writer "t.png" (Image.gray 2 2 (fun _ _ => 0))
        ⟨[⟨1, Units.named "nm", 2⟩, ⟨1, Units.named "nm", 2⟩], []⟩ true
        (some [("location", KVal.str "lower right")]) none true ["png"] []) =
      some [("location", KVal.str "lower right")] ∧
    dict_get [("location", KVal.str "lower right")] "box_alpha" = none := by
  constructor <;> decide

/-- C9 (amended): when `scalebar_kwds` is not supplied the configuration
defaults to `box_alpha=0.75` and location `"lower left"`; when the caller
supplies `scalebar_kwds`, the supplied dictionary is used as-is, replacing
the defaults entirely (no merging).  Stated for a plain-length unit so the
dimension entries are untouched. -/
theorem scalebar_kwds_replacement (filename : String) (signal_data : Image)
    (am : AxesManager) (output_size0 : Option OutputSize)
    (supported_format : List String) (kwds : Kwds) (a b : Axis) (u : String)
    (hsel : select_axes am = some (a, b))
    (hext : ext_of filename ∈ supported_format)
    (hcal : a.scale = b.scale ∧ a.units = b.units)
    (hu : a.units = Units.named u)
    (hinv : check_inverse_length u = false) :
    result_bar_kwds (file_writer filename signal_data am true none
        output_size0 true supported_format kwds) =
      some default_scalebar_kwds ∧
    (∀ d : Kwds,
      result_bar_kwds (file_writer filename signal_data am true (some d)
          output_size0 true supported_format kwds) = some d) := by
  obtain ⟨hs, hu'⟩ := hcal
  constructor
  · have heq : file_writer filename signal_data am true none output_size0
        true supported_format kwds =
        WriteResult.rendered (a, b)
          ((match output_size0 with
            | none => [((a.size : ℚ)), ((b.size : ℚ))]
            | some (OutputSize.num q) => [q, q]
            | some (OutputSize.pair x y) => [x, y]).map (fun s => s / 100))
          100
          (if is_rgbx signal_data then rgbx2regular_array signal_data
           else signal_data)
          (some (mk_scalebar_call a default_scalebar_kwds)) kwds := by
      simp [file_writer, hsel, hext, hs, hu']
    rw [heq]
    simp [result_bar_kwds, mk_scalebar_call, hu, hinv,
      default_scalebar_kwds]
  · intro d
    have heq : file_writer filename signal_data am true (some d)
        output_size0 true supported_format kwds =
        WriteResult.rendered (a, b)
          ((match output_size0 with
            | none => [((a.size : ℚ)), ((b.size : ℚ))]
            | some (OutputSize.num q) => [q, q]
            | some (OutputSize.pair x y) => [x, y]).map (fun s => s / 100))
          100
          (if is_rgbx signal_data then rgbx2regular_array signal_data
           else signal_data)
          (some (mk_scalebar_call a d)) kwds := by
      simp [file_writer, hsel, hext, hs, hu']
    rw [heq]
    simp [result_bar_kwds, mk_scalebar_call, hu, hinv]

/-- Witness for the amended C9: defaults apply when no dictionary is
supplied; a supplied dictionary is used as-is. -/
theorem scalebar_kwds_replacement_witness :
    result_bar_kwds (file_writer "t.png" (Image.gray 2 2 (fun _ _ => 0))
        ⟨[⟨1, Units.named "nm", 2⟩, ⟨1, Units.named "nm", 2⟩], []⟩ true none
        none true ["png"] []) = some default_scalebar_kwds ∧
    result_bar_kwds (file_writer "t.png" (Image.gray 2 2 (fun _ _ => 0))
        ⟨[⟨1, Units.named "nm", 2⟩, ⟨1, Units.named "nm", 2⟩], []⟩ true
        (some [("location", KVal.str "lower right")]) none true ["png"] []) =
      some [("location", KVal.str "lower right")] :=
  ⟨(scalebar_kwds_replacement "t.png" (Image.gray 2 2 (fun _ _ => 0))
      ⟨[⟨1, Units.named "nm", 2⟩, ⟨1, Units.named "nm", 2⟩], []⟩ none
      ["png"] [] ⟨1, Units.named "nm", 2⟩ ⟨1, Units.named "nm", 2⟩ "nm" rfl
      (by decide) ⟨rfl, rfl⟩ rfl (by decide)).1,
   (scalebar_kwds_replacement "t.png" (Image.gray 2 2 (fun _ _ => 0))
      ⟨[⟨1, Units.named "nm", 2⟩, ⟨1, Units.named "nm", 2⟩], []⟩ none
      ["png"] [] ⟨1, Units.named "nm", 2⟩ ⟨1, Units.named "nm", 2⟩ "nm" rfl
      (by decide) ⟨rfl, rfl⟩ rfl (by decide)).2
      [("location", KVal.str "lower right")]⟩

end HSImage
